import Mathlib

/-!
Verification of the credential / token lifecycle manager and the
authenticated request pipeline of the bitbucket-go-mcp repository.

The Go source is shallowly embedded: times are modelled as `Int` seconds
since the epoch (Go's `time.Time` zero value becomes `0`; `time.Now()`
becomes an explicit `now : Int` parameter; `t.After(u)` is the strict
comparison `t > u`), network interactions are modelled by oracle values
describing the response the environment delivered, and the Go functions
that mutate state through pointers are modelled as explicit state-passing
functions returning the post-call state together with the observable
effects (network refresh attempts, file writes, requests sent upstream).
-/

namespace Bitbucket

/-- The five-minute expiry buffer, in seconds (`5 * time.Minute`). -/
def bufferSeconds : Int := 300

/-- Embeds `TokenData` of `oauth.go`: the OAuth token record persisted by
the legacy token store.  `obtainedAt` is the wall-clock instant
(`time.Time` as `Int` seconds); the Go zero value `time.Time{}` is `0`. -/
structure TokenData where
  accessToken  : String
  refreshToken : String
  tokenType    : String
  expiresIn    : Int
  scopes       : String
  obtainedAt   : Int
  clientID     : String
  clientSecret : String
deriving DecidableEq, Repr

/-- Embeds `TokenData.IsExpired` of `oauth.go`:
`expiry := t.ObtainedAt.Add(ExpiresIn seconds)` and
`time.Now().After(expiry.Add(-5 * time.Minute))` — a strict comparison. -/
def TokenData.IsExpired (t : TokenData) (now : Int) : Bool :=
  now > t.obtainedAt + t.expiresIn - bufferSeconds

/-- Embeds `AuthType` of the credentials file: either `"api_token"`
(the static Basic-Auth scheme) or `"oauth"`. -/
inductive AuthType where
  | apiToken
  | oauth
deriving DecidableEq, Repr

/-- Embeds `Credentials` of the credentials file: the unified persisted
record covering both schemes.  All fields of the Go struct are present;
`createdAt` is `time.Time` as `Int` seconds. -/
structure Credentials where
  authType     : AuthType
  createdAt    : Int
  email        : String
  apiToken     : String
  accessToken  : String
  refreshToken : String
  tokenType    : String
  expiresIn    : Int
  scopes       : String
  clientID     : String
  clientSecret : String
deriving DecidableEq, Repr

/-- Embeds `Credentials.IsOAuth`. -/
def Credentials.IsOAuth (c : Credentials) : Bool :=
  c.authType = AuthType.oauth

/-- Embeds `Credentials.IsAPIToken`. -/
def Credentials.IsAPIToken (c : Credentials) : Bool :=
  c.authType = AuthType.apiToken

/-- Embeds `Credentials.IsExpired` of the credentials file: static
credentials never expire; OAuth credentials are compared with
`time.Now().After(expiry.Add(-5 * time.Minute))`, a strict comparison. -/
def Credentials.IsExpired (c : Credentials) (now : Int) : Bool :=
  if !c.IsOAuth then false
  else now > c.createdAt + c.expiresIn - bufferSeconds

/-- Reference definition of expiry taken from the spec's words, with the
boundary made strict (`now > createdAt + expiresIn - buffer`): static
credentials never expire; an OAuth credential is expired exactly when the
current time is strictly past `createdAt + expiresInSeconds` minus the
five-minute buffer. -/
def isExpiredRef (c : Credentials) (now : Int) : Bool :=
  c.IsOAuth && decide (now > c.createdAt + c.expiresIn - bufferSeconds)

/-- Reference definition of expiry exactly as the spec words it, with a
non-strict boundary (`now >= createdAt + expiresIn - buffer`). -/
def isExpiredSpecWord (c : Credentials) (now : Int) : Bool :=
  c.IsOAuth && decide (now ≥ c.createdAt + c.expiresIn - bufferSeconds)

/-! ## The token-endpoint refresh call (`RefreshAccessToken` of `oauth.go`) -/

/-- The parsed body of a `200` token-endpoint response (the anonymous
`result` struct inside `RefreshAccessToken` in `oauth.go`). -/
structure RefreshResult where
  access_token  : String
  refresh_token : String
  token_type    : String
  expires_in    : Int
  scopes        : String
deriving DecidableEq, Repr

/-- Oracle for one refresh-grant call against the token endpoint:
either the HTTP round trip itself fails (`http.DefaultClient.Do` or the
body read returns an error), or a response with some status and body
arrives; `parsed` is the outcome of `json.Unmarshal` on that body
(`none` when the body is unparsable). -/
inductive RefreshResponse where
  | netError
  | reply (status : Int) (body : String) (parsed : Option RefreshResult)
deriving DecidableEq, Repr

/-- The error cases of `RefreshAccessToken`. -/
inductive RefreshError where
  | network
  | badStatus (status : Int) (body : String)
  | parseError
deriving DecidableEq, Repr

/-- A persistence event: `SaveToken` / `SaveCredentials` writing one
record to disk. -/
inductive SaveEvent where
  | saveToken (t : TokenData)
deriving DecidableEq, Repr

/-- Embeds `RefreshAccessToken` of `oauth.go`.  The Go function mutates
`token` through a pointer; here the post-call record is the first
component.  The three early-return error paths (transport failure,
non-`200` status, unparsable body) leave the record untouched and write
nothing; the success path assigns `AccessToken`, conditionally
`RefreshToken` (only when the response carried a non-empty one),
`ExpiresIn`, `Scopes`, `ObtainedAt = time.Now()`, and finally persists
the mutated record via `SaveToken`. -/
def RefreshAccessToken (token : TokenData) (now : Int) (resp : RefreshResponse) :
    TokenData × List SaveEvent × Option RefreshError :=
  match resp with
  | .netError => (token, [], some RefreshError.network)
  | .reply status body parsed =>
    if status ≠ 200 then
      (token, [], some (RefreshError.badStatus status body))
    else
      match parsed with
      | none => (token, [], some RefreshError.parseError)
      | some result =>
        let token1 : TokenData :=
          { token with
            accessToken  := result.access_token
            refreshToken :=
              if result.refresh_token ≠ "" then result.refresh_token
              else token.refreshToken
            expiresIn    := result.expires_in
            scopes       := result.scopes
            obtainedAt   := now }
        (token1, [SaveEvent.saveToken token1], none)

/-! ## The HTTP client (`Client` of the client file, `part_008`) -/

/-- Embeds the `Client` struct: `token` is the bearer access token
cached on the client, `username`/`password` the Basic-Auth pair, and
`tokenData` the OAuth record enabling auto-refresh (`nil` when the
client was built with `NewClient`). -/
structure Client where
  token     : String
  username  : String
  password  : String
  tokenData : Option TokenData
deriving DecidableEq, Repr

/-- Embeds `NewClient`: Basic-Auth or plain-Bearer client, no OAuth
auto-refresh. -/
def NewClient (username password token : String) : Client :=
  { token := token, username := username, password := password,
    tokenData := none }

/-- Embeds `NewClientFromToken`: client built from stored OAuth token
data with auto-refresh. -/
def NewClientFromToken (td : TokenData) : Client :=
  { token := td.accessToken, username := "", password := "",
    tokenData := some td }

/-- Embeds `Client.ensureValidToken`.  Returns the post-call client, the
number of refresh-grant network calls performed (0 or 1), and the error
surfaced, if any.  The whole body runs under the client's mutex
(`c.mu`), so concurrent executions are serialized; this function is one
such serialized critical section.  When the refresh fails the client —
including its in-memory `tokenData` — is left exactly as it was. -/
def ensureValidToken (c : Client) (now : Int) (resp : RefreshResponse) :
    Client × Nat × Option RefreshError :=
  match c.tokenData with
  | none => (c, 0, none)
  | some td =>
    if !td.IsExpired now then (c, 0, none)
    else
      match RefreshAccessToken td now resp with
      | (td1, _, some e) => ({ c with tokenData := some td1 }, 1, some e)
      | (td1, _, none) =>
        ({ c with tokenData := some td1, token := td1.accessToken }, 1, none)

/-- An upstream HTTP response delivered to the client. -/
structure HttpResponse where
  status : Int
  body   : String
deriving DecidableEq, Repr

/-- The auth header the client attaches (`do`'s header logic): `Bearer`
when a token is cached, Basic-Auth when a username/password pair is set,
otherwise no auth header. -/
def authHeaderOf (c : Client) : Option String :=
  if c.token ≠ "" then some ("Bearer " ++ c.token)
  else if c.username ≠ "" && c.password ≠ "" then
    some ("Basic " ++ c.username ++ ":" ++ c.password)
  else none

/-- N callers racing through `ensureValidToken` and then reading the
auth header, as serialized by the client's mutex: the mutex makes the
critical sections execute one after another in some total order, so any
interleaving of N concurrent callers is equivalent to this sequential
run over the shared client state.  Returns the final client, the total
number of refresh-grant network calls, and each caller's outcome (the
refresh error it saw, or the auth header it read afterwards). -/
def serialCallers (c : Client) (now : Int) (resp : RefreshResponse) :
    Nat → Client × Nat × List (Except RefreshError (Option String))
  | 0 => (c, 0, [])
  | n + 1 =>
    match ensureValidToken c now resp with
    | (c1, r, some e) =>
      let rest := serialCallers c1 now resp n
      (rest.1, r + rest.2.1, Except.error e :: rest.2.2)
    | (c1, r, none) =>
      let rest := serialCallers c1 now resp n
      (rest.1, r + rest.2.1, Except.ok (authHeaderOf c1) :: rest.2.2)

/-- Environment oracle for one `Client.do` call: the current time, the
refresh-grant outcome used by the entry `ensureValidToken`, the first
upstream response, the refresh-grant outcome used after a `401`, and the
upstream response to the resent request. -/
structure DoEnv where
  now          : Int
  entryRefresh : RefreshResponse
  resp1        : HttpResponse
  retryRefresh : RefreshResponse
  resp2        : HttpResponse
deriving DecidableEq, Repr

/-- The error cases of `Client.do`. -/
inductive DoError where
  | refreshingToken (e : RefreshError)
  | refreshingAfter401 (e : RefreshError)
deriving DecidableEq, Repr

/-- Everything observable about one `Client.do` call: the post-call
client, the returned response or error, the auth header of each request
actually sent upstream (in order), the total number of refresh-grant
network calls, and the number of refresh-grant calls made by the forced
(post-`401`) refresh. -/
structure DoOutcome where
  client        : Client
  result        : Except DoError HttpResponse
  sends         : List (Option String)
  refreshCalls  : Nat
  forcedRefreshCalls : Nat
deriving Repr

/-- Embeds `Client.do` (named `doRequest` here because `do` is reserved
in Lean).  Control flow of the source: run `ensureValidToken`; build and
send the request with the auth header; if the response status is `401`
and the client holds OAuth data with a non-empty refresh token, zero
`ObtainedAt` (`time.Time{}`, forcing expiry), run `ensureValidToken`
again, rebuild the request with `"Bearer " ++ c.token`, send it once,
and return that second response whatever its status; otherwise return
the first response. -/
def Client.doRequest (c : Client) (env : DoEnv) : DoOutcome :=
  match ensureValidToken c env.now env.entryRefresh with
  | (c1, r1, some e) =>
    { client := c1, result := Except.error (DoError.refreshingToken e),
      sends := [], refreshCalls := r1, forcedRefreshCalls := 0 }
  | (c1, r1, none) =>
    let hdr1 := authHeaderOf c1
    let resp := env.resp1
    match c1.tokenData with
    | some td =>
      if resp.status = 401 && td.refreshToken ≠ "" then
        let c2 : Client :=
          { c1 with tokenData := some { td with obtainedAt := 0 } }
        match ensureValidToken c2 env.now env.retryRefresh with
        | (c3, r2, some e) =>
          { client := c3,
            result := Except.error (DoError.refreshingAfter401 e),
            sends := [hdr1], refreshCalls := r1 + r2,
            forcedRefreshCalls := r2 }
        | (c3, r2, none) =>
          { client := c3, result := Except.ok env.resp2,
            sends := [hdr1, some ("Bearer " ++ c3.token)],
            refreshCalls := r1 + r2, forcedRefreshCalls := r2 }
      else
        { client := c1, result := Except.ok resp, sends := [hdr1],
          refreshCalls := r1, forcedRefreshCalls := 0 }
    | none =>
      { client := c1, result := Except.ok resp, sends := [hdr1],
        refreshCalls := r1, forcedRefreshCalls := 0 }

/-! ## Status classification by the verb wrappers (`Get`, `GetRaw`,
`Post`, `Put`, `Delete`) -/

/-- The error cases of the verb wrappers: an error from `do` propagated
unchanged, or the `API error <status>: <body>` built from the final
response. -/
inductive CallError where
  | fromDo (e : DoError)
  | api (status : Int) (body : String)
deriving DecidableEq, Repr

/-- The status check shared verbatim by `Get`, `GetRaw`, `Post`, `Put`
and `Delete`: `if resp.StatusCode >= 400` the wrapper returns the
`API error` carrying the status and the body read from the response,
otherwise the body. -/
def classifyResponse (resp : HttpResponse) : Except CallError String :=
  if resp.status ≥ 400 then Except.error (CallError.api resp.status resp.body)
  else Except.ok resp.body

/-- Embeds `Client.Get`: run `do`, read the body, surface
`API error <status>: <body>` when the status is `>= 400`. -/
def Client.Get (c : Client) (env : DoEnv) : Except CallError String :=
  match (Client.doRequest c env).result with
  | Except.error e => Except.error (CallError.fromDo e)
  | Except.ok resp => classifyResponse resp

/-- Embeds `Client.GetRaw`: identical status check; additionally returns
the `Content-Type` header, which the model leaves abstract. -/
def Client.GetRaw (c : Client) (env : DoEnv) : Except CallError String :=
  match (Client.doRequest c env).result with
  | Except.error e => Except.error (CallError.fromDo e)
  | Except.ok resp => classifyResponse resp

/-- Embeds `Client.Post`: marshals the body (abstracted to the already
serialized `body` argument carried by the environment), runs `do` with
content type `application/json`, same status check. -/
def Client.Post (c : Client) (env : DoEnv) : Except CallError String :=
  match (Client.doRequest c env).result with
  | Except.error e => Except.error (CallError.fromDo e)
  | Except.ok resp => classifyResponse resp

/-- Embeds `Client.Put`: structurally identical to `Post`. -/
def Client.Put (c : Client) (env : DoEnv) : Except CallError String :=
  match (Client.doRequest c env).result with
  | Except.error e => Except.error (CallError.fromDo e)
  | Except.ok resp => classifyResponse resp

/-- Embeds `Client.Delete`: same status check, discards the body on
success. -/
def Client.Delete (c : Client) (env : DoEnv) : Except CallError Unit :=
  match (Client.doRequest c env).result with
  | Except.error e => Except.error (CallError.fromDo e)
  | Except.ok resp =>
    if resp.status ≥ 400 then
      Except.error (CallError.api resp.status resp.body)
    else Except.ok ()

/-! ## The OAuth authorization-code flow callback (`OAuthLogin` of
`oauth.go`) -/

/-- The query parameters of a request received by the local `/callback`
handler (absent parameters are the empty string, as with
`r.URL.Query().Get`). -/
structure CallbackRequest where
  state            : String
  errorParam       : String
  errorDescription : String
  code             : String
deriving DecidableEq, Repr

/-- What the `/callback` handler does with one request: push an error on
`errCh` (state mismatch, provider-reported error, missing code) or push
the authorization code on `codeCh`. -/
inductive CallbackOutcome where
  | stateMismatch
  | oauthErr (e d : String)
  | noCode
  | gotCode (code : String)
deriving DecidableEq, Repr

/-- Embeds the `/callback` handler closure inside `OAuthLogin`, in
source order: compare `state` against the generated value first, then
check the provider `error` parameter, then require a non-empty `code`. -/
def handleCallback (generatedState : String) (r : CallbackRequest) :
    CallbackOutcome :=
  if r.state ≠ generatedState then CallbackOutcome.stateMismatch
  else if r.errorParam ≠ "" then
    CallbackOutcome.oauthErr r.errorParam r.errorDescription
  else if r.code = "" then CallbackOutcome.noCode
  else CallbackOutcome.gotCode r.code

/-- The decision `OAuthLogin` takes after its `select` on `codeCh` /
`errCh`: either proceed to the code-for-token exchange with the received
code, or return the error with no exchange. -/
inductive FlowDecision where
  | exchange (code : String)
  | fail (o : CallbackOutcome)
deriving DecidableEq, Repr

/-- Embeds the `select` in `OAuthLogin` resolving the first meaningful
callback: a code continues to the token exchange; any error returns
immediately after shutting the listener down, before any token-endpoint
request is built. -/
def oauthFlowResolve (generatedState : String) (r : CallbackRequest) :
    FlowDecision :=
  match handleCallback generatedState r with
  | CallbackOutcome.gotCode code => FlowDecision.exchange code
  | o => FlowDecision.fail o

/-- Whether a flow decision performs the code-for-token exchange. -/
def FlowDecision.performsExchange : FlowDecision → Bool
  | FlowDecision.exchange _ => true
  | FlowDecision.fail _ => false

/-! ## File-system effects of the persistence layer (`SaveCredentials`
of the credentials file and `SaveToken` of `oauth.go`) -/

/-- One file-system effect performed by a save: `os.MkdirAll(dir, perm)`
or `os.WriteFile(path, data, perm)`.  Permissions are the Go octal mode
bits as a `Nat`. -/
inductive FsEffect where
  | mkdirAll (path : String) (perm : Nat)
  | writeFile (path : String) (perm : Nat)
deriving DecidableEq, Repr

/-- Embeds `CredentialsPath`: `~/.config/bbkt/credentials.json`. -/
def CredentialsPath (home : String) : String :=
  home ++ "/.config/bbkt/credentials.json"

/-- Embeds `TokenPath` of `oauth.go`:
`~/.config/bitbucket-mcp/token.json`. -/
def TokenPath (home : String) : String :=
  home ++ "/.config/bitbucket-mcp/token.json"

/-- Embeds the effect sequence of `SaveCredentials`:
`os.MkdirAll(filepath.Dir(path), 0o700)` then
`os.WriteFile(path, data, 0o600)`. -/
def SaveCredentialsEffects (home : String) : List FsEffect :=
  [ FsEffect.mkdirAll (home ++ "/.config/bbkt") 0o700,
    FsEffect.writeFile (CredentialsPath home) 0o600 ]

/-- Embeds the effect sequence of `SaveToken` of `oauth.go`:
`os.MkdirAll(filepath.Dir(path), 0700)` then
`os.WriteFile(path, data, 0600)` (Go literals `0700`/`0600` are
octal). -/
def SaveTokenEffects (home : String) : List FsEffect :=
  [ FsEffect.mkdirAll (home ++ "/.config/bitbucket-mcp") 0o700,
    FsEffect.writeFile (TokenPath home) 0o600 ]

/-- The group and other permission bits of a mode. -/
def groupOtherBits (perm : Nat) : Nat := perm % 64

/-! ## JSON serialization of the persisted records

`encoding/json` is modelled at the level of JSON object fields: a
marshalled record is an association list from JSON key to value, a field
tagged `omitempty` is omitted when it holds its zero value, and
`json.Unmarshal` populates each struct field from the entry with its
key, leaving the zero value when the key is absent. -/

/-- A JSON field value as used by the two persisted records: a string,
a Go `int`, or a `time.Time` (RFC 3339 round trips through its wall
clock reading, modelled as `Int` seconds). -/
inductive JVal where
  | jstr (s : String)
  | jint (n : Int)
  | jtime (t : Int)
deriving DecidableEq, Repr

/-- The JSON string of an `AuthType` value. -/
def AuthType.toGoString : AuthType → String
  | AuthType.apiToken => "api_token"
  | AuthType.oauth => "oauth"

/-- Reading an `AuthType` back from its JSON string. -/
def AuthType.ofGoString (s : String) : AuthType :=
  if s = "oauth" then AuthType.oauth else AuthType.apiToken

/-- `omitempty` emission of a string field: omitted when empty. -/
def emitStr (key v : String) : List (String × JVal) :=
  if v = "" then [] else [(key, JVal.jstr v)]

/-- `omitempty` emission of an `int` field: omitted when zero. -/
def emitInt (key : String) (v : Int) : List (String × JVal) :=
  if v = 0 then [] else [(key, JVal.jint v)]

/-- `json.Unmarshal` of a string field: the entry's string if present,
the zero value otherwise. -/
def lookupStr (l : List (String × JVal)) (key : String) : String :=
  match l.lookup key with
  | some (JVal.jstr s) => s
  | _ => ""

/-- `json.Unmarshal` of an `int` field. -/
def lookupInt (l : List (String × JVal)) (key : String) : Int :=
  match l.lookup key with
  | some (JVal.jint n) => n
  | _ => 0

/-- `json.Unmarshal` of a `time.Time` field. -/
def lookupTime (l : List (String × JVal)) (key : String) : Int :=
  match l.lookup key with
  | some (JVal.jtime t) => t
  | _ => 0

/-- `json.MarshalIndent` of a `Credentials` record, following the
struct tags of the credentials file: `auth_type` and `created_at` are
always present, every other field carries `omitempty`. -/
def marshalCredentials (c : Credentials) : List (String × JVal) :=
  ("auth_type", JVal.jstr c.authType.toGoString) ::
  ("created_at", JVal.jtime c.createdAt) ::
  (emitStr "email" c.email ++
   emitStr "api_token" c.apiToken ++
   emitStr "access_token" c.accessToken ++
   emitStr "refresh_token" c.refreshToken ++
   emitStr "token_type" c.tokenType ++
   emitInt "expires_in" c.expiresIn ++
   emitStr "scopes" c.scopes ++
   emitStr "client_id" c.clientID ++
   emitStr "client_secret" c.clientSecret)

/-- `json.Unmarshal` into a `Credentials` record. -/
def unmarshalCredentials (l : List (String × JVal)) : Credentials :=
  { authType     := AuthType.ofGoString (lookupStr l "auth_type")
    createdAt    := lookupTime l "created_at"
    email        := lookupStr l "email"
    apiToken     := lookupStr l "api_token"
    accessToken  := lookupStr l "access_token"
    refreshToken := lookupStr l "refresh_token"
    tokenType    := lookupStr l "token_type"
    expiresIn    := lookupInt l "expires_in"
    scopes       := lookupStr l "scopes"
    clientID     := lookupStr l "client_id"
    clientSecret := lookupStr l "client_secret" }

/-- `json.MarshalIndent` of a `TokenData` record (`oauth.go`): none of
its struct tags carry `omitempty`, so every field is always present. -/
def marshalTokenData (t : TokenData) : List (String × JVal) :=
  [("access_token", JVal.jstr t.accessToken),
   ("refresh_token", JVal.jstr t.refreshToken),
   ("token_type", JVal.jstr t.tokenType),
   ("expires_in", JVal.jint t.expiresIn),
   ("scopes", JVal.jstr t.scopes),
   ("obtained_at", JVal.jtime t.obtainedAt),
   ("client_id", JVal.jstr t.clientID),
   ("client_secret", JVal.jstr t.clientSecret)]

/-- `json.Unmarshal` into a `TokenData` record. -/
def unmarshalTokenData (l : List (String × JVal)) : TokenData :=
  { accessToken  := lookupStr l "access_token"
    refreshToken := lookupStr l "refresh_token"
    tokenType    := lookupStr l "token_type"
    expiresIn    := lookupInt l "expires_in"
    scopes       := lookupStr l "scopes"
    obtainedAt   := lookupTime l "obtained_at"
    clientID     := lookupStr l "client_id"
    clientSecret := lookupStr l "client_secret" }

/-- The credential file as seen by one store: absent, or holding one
marshalled record. -/
structure FileStore where
  contents : Option (List (String × JVal))
deriving DecidableEq, Repr

/-- `SaveCredentials`, store-content view: the file now holds the
marshalled record. -/
def SaveCredentialsStore (c : Credentials) : FileStore :=
  { contents := some (marshalCredentials c) }

/-- `LoadCredentials`, store-content view: read error when the file is
absent, otherwise the unmarshalled record. -/
def LoadCredentialsStore (fs : FileStore) : Option Credentials :=
  fs.contents.map unmarshalCredentials

/-- `SaveToken` of `oauth.go`, store-content view. -/
def SaveTokenStore (t : TokenData) : FileStore :=
  { contents := some (marshalTokenData t) }

/-- `LoadToken` of `oauth.go`, store-content view. -/
def LoadTokenStore (fs : FileStore) : Option TokenData :=
  fs.contents.map unmarshalTokenData

/-! ## Helper lemmas -/

/-- A failing refresh-grant call leaves the token record untouched and
persists nothing: the three error paths of `RefreshAccessToken` return
before any field assignment. -/
theorem refresh_error_frame (token : TokenData) (now : Int)
    (resp : RefreshResponse) (e : RefreshError)
    (h : (RefreshAccessToken token now resp).2.2 = some e) :
    (RefreshAccessToken token now resp).1 = token ∧
      (RefreshAccessToken token now resp).2.1 = [] := by
  cases resp with
  | netError => exact ⟨rfl, rfl⟩
  | reply status body parsed =>
    by_cases hs : status = 200
    · subst hs
      cases parsed with
      | none => exact ⟨rfl, rfl⟩
      | some result => simp [RefreshAccessToken] at h
    · simp [RefreshAccessToken, hs]

/-- Replacing a client's token data by the value it already holds is the
identity. -/
theorem client_replace_same (c : Client) (td : TokenData)
    (h : c.tokenData = some td) :
    ({ c with tokenData := some td } : Client) = c := by
  cases c
  simp only at h
  subst h
  rfl

/-- An `ensureValidToken` critical section performs at most one
refresh-grant network call. -/
theorem ensureValidToken_calls_le_one (c : Client) (now : Int)
    (resp : RefreshResponse) : (ensureValidToken c now resp).2.1 ≤ 1 := by
  unfold ensureValidToken
  cases c.tokenData with
  | none => simp
  | some td =>
    by_cases h : td.IsExpired now
    · simp only [h]
      cases hr : RefreshAccessToken td now resp with
      | mk td1 rest =>
        cases rest with
        | mk saves err => cases err <;> simp
    · simp [h]

/-! ## Theorems for the claims -/

/-- Claim C2, counterexample to the claim as stated.  The claim requires
`IsExpired` to return `true` exactly when `now >= createdAt +
expiresInSeconds - bufferSeconds`.  For the OAuth credential below with
`createdAt = 0`, `expiresIn = 3600` and `now = 3300` the boundary is
attained (`3300 >= 0 + 3600 - 300`), so the claim's reference returns
`true`, but the code's `time.Now().After(...)` comparison is strict and
returns `false`. -/
theorem c2_counterexample_boundary :
    Credentials.IsExpired
      { authType := AuthType.oauth, createdAt := 0, email := "",
        apiToken := "", accessToken := "a", refreshToken := "r",
        tokenType := "bearer", expiresIn := 3600, scopes := "",
        clientID := "i", clientSecret := "s" } 3300 = false ∧
    isExpiredSpecWord
      { authType := AuthType.oauth, createdAt := 0, email := "",
        apiToken := "", accessToken := "a", refreshToken := "r",
        tokenType := "bearer", expiresIn := 3600, scopes := "",
        clientID := "i", clientSecret := "s" } 3300 = true := by
  constructor <;> decide

/-- Claim C2 (amended): `IsExpired` equals the reference definition with
a strict boundary — static/API-token credentials are never expired, and
an OAUTH credential is expired exactly when `now` is strictly greater
than `createdAt + expiresInSeconds - bufferSeconds`, with the buffer
fixed at five minutes and `expiresInSeconds = 0` not special-cased; the
legacy `TokenData.IsExpired` satisfies the same strict comparison
against `obtainedAt`. -/
theorem c2_isExpired_strict_reference :
    (∀ (c : Credentials) (now : Int),
        Credentials.IsExpired c now = isExpiredRef c now) ∧
    (∀ (c : Credentials) (now : Int), c.IsOAuth = false →
        Credentials.IsExpired c now = false) ∧
    (∀ (c : Credentials) (now : Int), c.IsOAuth = true →
        (Credentials.IsExpired c now = true ↔
          now > c.createdAt + c.expiresIn - bufferSeconds)) ∧
    (∀ (t : TokenData) (now : Int),
        (TokenData.IsExpired t now = true ↔
          now > t.obtainedAt + t.expiresIn - bufferSeconds)) := by
  refine ⟨?_, ?_, ?_, ?_⟩
  · intro c now
    unfold Credentials.IsExpired isExpiredRef
    cases h : c.IsOAuth <;> simp [h]
  · intro c now h
    unfold Credentials.IsExpired
    simp [h]
  · intro c now h
    unfold Credentials.IsExpired
    simp [h]
  · intro t now
    unfold TokenData.IsExpired
    simp

/-- Claim C2 witness: the amended theorem applied to a concrete static
credential and a concrete OAuth credential at concrete times. -/
theorem c2_isExpired_strict_reference_witness :
    Credentials.IsExpired
      { authType := AuthType.apiToken, createdAt := 0, email := "a@b.com",
        apiToken := "tok123", accessToken := "", refreshToken := "",
        tokenType := "", expiresIn := 0, scopes := "",
        clientID := "", clientSecret := "" } 99999999 = false ∧
    (Credentials.IsExpired
      { authType := AuthType.oauth, createdAt := 1000, email := "",
        apiToken := "", accessToken := "a", refreshToken := "r",
        tokenType := "bearer", expiresIn := 3600, scopes := "",
        clientID := "i", clientSecret := "s" } 4400 = true ↔
      (4400 : Int) > 1000 + 3600 - bufferSeconds) :=
  ⟨c2_isExpired_strict_reference.2.1 _ 99999999 (by decide),
   c2_isExpired_strict_reference.2.2.1 _ 4400 (by decide)⟩

/-- Claim C3: when a refresh attempt fails — transport error, non-`200`
from the token endpoint, or an unparsable response — the credential
record is not mutated (every field keeps its pre-refresh value,
`obtainedAt` included), nothing is persisted, the error is surfaced, and
a client holding that credential is left exactly as it was so a later
call can retry. -/
theorem c3_failed_refresh_preserves_credential (token : TokenData)
    (now : Int) (resp : RefreshResponse) (e : RefreshError)
    (h : (RefreshAccessToken token now resp).2.2 = some e) :
    (RefreshAccessToken token now resp).1 = token ∧
    (RefreshAccessToken token now resp).2.1 = [] ∧
    (∀ (c : Client), c.tokenData = some token →
        (ensureValidToken c now resp).1 = c ∧
        (token.IsExpired now = true →
          (ensureValidToken c now resp).2.2 = some e)) := by
  obtain ⟨h1, h2⟩ := refresh_error_frame token now resp e h
  refine ⟨h1, h2, ?_⟩
  intro c hc
  unfold ensureValidToken
  rw [hc]
  by_cases hx : token.IsExpired now
  · simp only [hx, Bool.not_true, Bool.false_eq_true, if_false]
    cases hr : RefreshAccessToken token now resp with
    | mk td1 rest =>
      cases rest with
      | mk saves err =>
        cases err with
        | none => rw [hr] at h; simp at h
        | some e2 =>
          have hee : e2 = e := by rw [hr] at h; simpa using h
          have hte : td1 = token := by rw [hr] at h1; exact h1
          subst hee; subst hte
          exact ⟨client_replace_same c _ hc, fun _ => rfl⟩
  · simp [hx]

/-- Claim C3 witness: a concrete failed refresh (`400` from the token
endpoint) against a concrete credential and client. -/
theorem c3_failed_refresh_preserves_credential_witness :
    (RefreshAccessToken
      { accessToken := "old", refreshToken := "r", tokenType := "bearer",
        expiresIn := 3600, scopes := "repo", obtainedAt := 500,
        clientID := "i", clientSecret := "s" } 90000
      (RefreshResponse.reply 400 "invalid_grant" none)).1 =
      { accessToken := "old", refreshToken := "r", tokenType := "bearer",
        expiresIn := 3600, scopes := "repo", obtainedAt := 500,
        clientID := "i", clientSecret := "s" } :=
  (c3_failed_refresh_preserves_credential _ 90000 _
    (RefreshError.badStatus 400 "invalid_grant") (by decide)).1

/-- Claim C4: a callback whose `state` query parameter differs from the
generated random state resolves the flow to a CSRF-mismatch failure, and
the code-for-token exchange is never performed in that flow instance. -/
theorem c4_state_mismatch_no_exchange (generatedState : String)
    (r : CallbackRequest) (h : r.state ≠ generatedState) :
    oauthFlowResolve generatedState r =
      FlowDecision.fail CallbackOutcome.stateMismatch ∧
    (oauthFlowResolve generatedState r).performsExchange = false := by
  unfold oauthFlowResolve handleCallback
  simp [h, FlowDecision.performsExchange]

/-- Claim C4 witness: a concrete callback carrying a wrong state. -/
theorem c4_state_mismatch_no_exchange_witness :
    oauthFlowResolve "a3f1"
      { state := "forged", errorParam := "", errorDescription := "",
        code := "c0de" } =
      FlowDecision.fail CallbackOutcome.stateMismatch :=
  (c4_state_mismatch_no_exchange "a3f1" _ (by decide)).1

/-- Claim C7: both stores create the parent configuration directory with
owner-only mode `0700` and write the credential file with owner-only
mode `0600`; no effect of either save grants any group or other
permission bit. -/
theorem c7_owner_only_permissions (home : String) :
    (∀ (p : String) (perm : Nat),
        (FsEffect.writeFile p perm ∈ SaveCredentialsEffects home ∨
         FsEffect.writeFile p perm ∈ SaveTokenEffects home) →
        perm = 0o600 ∧ groupOtherBits perm = 0) ∧
    (∀ (p : String) (perm : Nat),
        (FsEffect.mkdirAll p perm ∈ SaveCredentialsEffects home ∨
         FsEffect.mkdirAll p perm ∈ SaveTokenEffects home) →
        perm = 0o700 ∧ groupOtherBits perm = 0) ∧
    FsEffect.mkdirAll (home ++ "/.config/bbkt") 0o700 ∈
      SaveCredentialsEffects home ∧
    FsEffect.writeFile (CredentialsPath home) 0o600 ∈
      SaveCredentialsEffects home ∧
    FsEffect.mkdirAll (home ++ "/.config/bitbucket-mcp") 0o700 ∈
      SaveTokenEffects home ∧
    FsEffect.writeFile (TokenPath home) 0o600 ∈ SaveTokenEffects home := by
  refine ⟨?_, ?_, ?_, ?_, ?_, ?_⟩
  · intro p perm hmem
    cases hmem with
    | inl hc => simp [SaveCredentialsEffects] at hc; simp [hc.2, groupOtherBits]
    | inr ht => simp [SaveTokenEffects] at ht; simp [ht.2, groupOtherBits]
  · intro p perm hmem
    cases hmem with
    | inl hc => simp [SaveCredentialsEffects] at hc; simp [hc.2, groupOtherBits]
    | inr ht => simp [SaveTokenEffects] at ht; simp [ht.2, groupOtherBits]
  · simp [SaveCredentialsEffects]
  · simp [SaveCredentialsEffects]
  · simp [SaveTokenEffects]
  · simp [SaveTokenEffects]

/-- Claim C7 witness: the permission facts at a concrete home
directory. -/
theorem c7_owner_only_permissions_witness :
    FsEffect.writeFile (CredentialsPath "/home/u") 0o600 ∈
      SaveCredentialsEffects "/home/u" :=
  (c7_owner_only_permissions "/home/u").2.2.2.1

/-- Claim C8, counterexample to the claim as stated.  The claim requires
that an expired OAUTH credential without a refresh token is never the
subject of a refresh-grant call (a `ReauthRequired`-style failure should
short-circuit it).  The concrete client below holds an expired token
with an empty `refreshToken`, yet `ensureValidToken` performs exactly
one refresh-grant network call against the token endpoint. -/
theorem c8_counterexample_refresh_attempted :
    (ensureValidToken
      (NewClientFromToken
        { accessToken := "old", refreshToken := "", tokenType := "bearer",
          expiresIn := 3600, scopes := "", obtainedAt := 0,
          clientID := "i", clientSecret := "s" }) 10000
      (RefreshResponse.reply 400 "invalid_grant" none)).2.1 = 1 ∧
    TokenData.IsExpired
      { accessToken := "old", refreshToken := "", tokenType := "bearer",
        expiresIn := 3600, scopes := "", obtainedAt := 0,
        clientID := "i", clientSecret := "s" } 10000 = true := by
  constructor <;> decide

/-- Claim C8 (amended): an expired OAUTH credential without a refresh
token is never silently accepted, but the code does not short-circuit
with a `ReauthRequired`-style error: `ensureValidToken` performs the
refresh-grant call (sending the empty refresh token), and when the token
endpoint rejects it the error is surfaced to the caller with the client
state unchanged. -/
theorem c8_expired_nonrefreshable_attempts_and_fails (c : Client)
    (td : TokenData) (now : Int) (resp : RefreshResponse) (e : RefreshError)
    (hc : c.tokenData = some td)
    (hrt : td.refreshToken = "")
    (hexp : td.IsExpired now = true)
    (hfail : (RefreshAccessToken td now resp).2.2 = some e) :
    (ensureValidToken c now resp).2.1 = 1 ∧
    (ensureValidToken c now resp).2.2 = some e ∧
    (ensureValidToken c now resp).1 = c := by
  have hframe := refresh_error_frame td now resp e hfail
  unfold ensureValidToken
  rw [hc]
  simp only [hexp, Bool.not_true, Bool.false_eq_true, if_false]
  cases hr : RefreshAccessToken td now resp with
  | mk td1 rest =>
    cases rest with
    | mk saves err =>
      cases err with
      | none => rw [hr] at hfail; simp at hfail
      | some e2 =>
        have hee : e2 = e := by
          rw [hr] at hfail; simpa using hfail
        have hte : td1 = td := by rw [hr] at hframe; exact hframe.1
        subst hee; subst hte
        exact ⟨rfl, rfl, client_replace_same c _ hc⟩

/-- Claim C8 witness: the amended theorem at the concrete expired,
non-refreshable credential. -/
theorem c8_expired_nonrefreshable_attempts_and_fails_witness :
    (ensureValidToken
      (NewClientFromToken
        { accessToken := "old", refreshToken := "", tokenType := "bearer",
          expiresIn := 3600, scopes := "", obtainedAt := 0,
          clientID := "i", clientSecret := "s" }) 10000
      (RefreshResponse.reply 400 "invalid_grant" none)).2.2 =
      some (RefreshError.badStatus 400 "invalid_grant") :=
  (c8_expired_nonrefreshable_attempts_and_fails _ _ 10000 _ _
    rfl rfl (by decide) (by decide)).2.1

/-- Claim C10: a successful refresh sets exactly `accessToken`,
`expiresIn`, `scopes` and `obtainedAt` (to the refresh time); the stored
`refreshToken` is replaced only when the response carries a non-empty
`refresh_token`, the previous one being kept otherwise; and `tokenType`,
`clientID` and `clientSecret` are never changed by a refresh. -/
theorem c10_refresh_frame (token : TokenData) (now : Int) (body : String)
    (result : RefreshResult) :
    (RefreshAccessToken token now
        (RefreshResponse.reply 200 body (some result))).2.2 = none ∧
    (RefreshAccessToken token now
        (RefreshResponse.reply 200 body (some result))).1 =
      { token with
        accessToken  := result.access_token
        refreshToken :=
          if result.refresh_token ≠ "" then result.refresh_token
          else token.refreshToken
        expiresIn    := result.expires_in
        scopes       := result.scopes
        obtainedAt   := now } ∧
    (RefreshAccessToken token now
        (RefreshResponse.reply 200 body (some result))).1.tokenType =
      token.tokenType ∧
    (RefreshAccessToken token now
        (RefreshResponse.reply 200 body (some result))).1.clientID =
      token.clientID ∧
    (RefreshAccessToken token now
        (RefreshResponse.reply 200 body (some result))).1.clientSecret =
      token.clientSecret := by
  refine ⟨?_, ?_, ?_, ?_, ?_⟩ <;> simp [RefreshAccessToken]

/-- Claim C1: when the first response of a `do` call is `401` and the
client holds OAuth data with a non-empty refresh token, exactly one
forced refresh runs and the request is resent exactly once with the new
bearer header, the second response being returned whatever its status;
when the refresh token is empty or the client holds no OAuth data, the
`401` (first) response is returned with no retry; and structurally no
input can cause a second forced refresh or a second resend within one
`do` call. -/
theorem c1_single_retry_on_401 (c : Client) (td : TokenData) (env : DoEnv)
    (hc : c.tokenData = some td)
    (hfresh : td.IsExpired env.now = false)
    (h401 : env.resp1.status = 401) :
    ((∀ (body : String) (result : RefreshResult),
        td.refreshToken ≠ "" →
        env.retryRefresh = RefreshResponse.reply 200 body (some result) →
        td.expiresIn - bufferSeconds < env.now →
        (Client.doRequest c env).refreshCalls = 1 ∧
        (Client.doRequest c env).sends =
          [authHeaderOf c, some ("Bearer " ++ result.access_token)] ∧
        (Client.doRequest c env).result = Except.ok env.resp2) ∧
     (td.refreshToken = "" →
        (Client.doRequest c env).refreshCalls = 0 ∧
        (Client.doRequest c env).sends = [authHeaderOf c] ∧
        (Client.doRequest c env).result = Except.ok env.resp1)) ∧
    (∀ (c2 : Client) (env2 : DoEnv), c2.tokenData = none →
        (Client.doRequest c2 env2).refreshCalls = 0 ∧
        (Client.doRequest c2 env2).sends = [authHeaderOf c2] ∧
        (Client.doRequest c2 env2).result = Except.ok env2.resp1) ∧
    (∀ (c2 : Client) (env2 : DoEnv),
        (Client.doRequest c2 env2).forcedRefreshCalls ≤ 1 ∧
        (Client.doRequest c2 env2).sends.length ≤ 2) := by
  have hEntry : ensureValidToken c env.now env.entryRefresh = (c, 0, none) := by
    unfold ensureValidToken
    rw [hc]
    simp [hfresh]
  refine ⟨⟨?_, ?_⟩, ?_, ?_⟩
  · intro body result hrt hretry hvalid
    have hexp2 : TokenData.IsExpired { td with obtainedAt := 0 } env.now = true := by
      simp only [TokenData.IsExpired]
      simp only [decide_eq_true_eq]
      omega
    unfold Client.doRequest
    rw [hEntry]
    simp only
    rw [hc]
    simp only [h401, hrt, hretry]
    unfold ensureValidToken
    simp only [hexp2, Bool.not_true, Bool.false_eq_true, if_false]
    simp [RefreshAccessToken, hrt]
  · intro hrt
    unfold Client.doRequest
    rw [hEntry]
    simp only
    rw [hc]
    simp [hrt]
  · intro c2 env2 hnone
    have hE : ensureValidToken c2 env2.now env2.entryRefresh = (c2, 0, none) := by
      unfold ensureValidToken
      rw [hnone]
    unfold Client.doRequest
    rw [hE]
    simp only
    rw [hnone]
    simp
  · intro c2 env2
    unfold Client.doRequest
    cases hE : ensureValidToken c2 env2.now env2.entryRefresh with
    | mk c1 rest =>
      cases rest with
      | mk r1 err1 =>
        cases err1 with
        | some e => simp
        | none =>
          dsimp only
          cases hT : c1.tokenData with
          | none => simp
          | some td0 =>
            dsimp only
            by_cases hcond :
              (decide (env2.resp1.status = 401) &&
                decide (td0.refreshToken ≠ "")) = true
            · rw [if_pos hcond]
              cases hE2 : ensureValidToken
                  { c1 with tokenData := some { td0 with obtainedAt := 0 } }
                  env2.now env2.retryRefresh with
              | mk c3 rest2 =>
                cases rest2 with
                | mk r2 err2 =>
                  have hr2 : r2 ≤ 1 := by
                    have hle := ensureValidToken_calls_le_one
                      { c1 with tokenData := some { td0 with obtainedAt := 0 } }
                      env2.now env2.retryRefresh
                    rw [hE2] at hle
                    exact hle
                  cases err2 with
                  | some e => exact ⟨by simpa using hr2, by simp⟩
                  | none => exact ⟨by simpa using hr2, by simp⟩
            · rw [if_neg hcond]
              simp

/-- Claim C1 witness: a concrete client holding a fresh OAuth token with
a refresh token, receiving `401` then `200`: the call returns the second
response after exactly one refresh. -/
theorem c1_single_retry_on_401_witness :
    (Client.doRequest
      (NewClientFromToken
        { accessToken := "tokA", refreshToken := "r1", tokenType := "bearer",
          expiresIn := 3600, scopes := "repo", obtainedAt := 1000000,
          clientID := "i", clientSecret := "s" })
      { now := 1000010, entryRefresh := RefreshResponse.netError,
        resp1 := { status := 401, body := "unauthorized" },
        retryRefresh := RefreshResponse.reply 200 "ok"
          (some { access_token := "tokB", refresh_token := "r2",
                  token_type := "bearer", expires_in := 7200,
                  scopes := "repo" }),
        resp2 := { status := 200, body := "data" } }).result =
      Except.ok { status := 200, body := "data" } ∧
    (Client.doRequest
      (NewClientFromToken
        { accessToken := "tokA", refreshToken := "r1", tokenType := "bearer",
          expiresIn := 3600, scopes := "repo", obtainedAt := 1000000,
          clientID := "i", clientSecret := "s" })
      { now := 1000010, entryRefresh := RefreshResponse.netError,
        resp1 := { status := 401, body := "unauthorized" },
        retryRefresh := RefreshResponse.reply 200 "ok"
          (some { access_token := "tokB", refresh_token := "r2",
                  token_type := "bearer", expires_in := 7200,
                  scopes := "repo" }),
        resp2 := { status := 200, body := "data" } }).refreshCalls = 1 :=
  have happ := (c1_single_retry_on_401
    (NewClientFromToken
      { accessToken := "tokA", refreshToken := "r1", tokenType := "bearer",
        expiresIn := 3600, scopes := "repo", obtainedAt := 1000000,
        clientID := "i", clientSecret := "s" })
    { accessToken := "tokA", refreshToken := "r1", tokenType := "bearer",
      expiresIn := 3600, scopes := "repo", obtainedAt := 1000000,
      clientID := "i", clientSecret := "s" }
    { now := 1000010, entryRefresh := RefreshResponse.netError,
      resp1 := { status := 401, body := "unauthorized" },
      retryRefresh := RefreshResponse.reply 200 "ok"
        (some { access_token := "tokB", refresh_token := "r2",
                token_type := "bearer", expires_in := 7200,
                scopes := "repo" }),
      resp2 := { status := 200, body := "data" } }
    rfl (by decide) rfl).1.1 "ok"
    { access_token := "tokB", refresh_token := "r2", token_type := "bearer",
      expires_in := 7200, scopes := "repo" }
    (by decide) rfl (by decide)
  ⟨happ.2.2, happ.1⟩

/-- Claim C9, counterexample to the claim as stated.  The claim requires
every non-2xx final response to surface as an `APIError`; the wrappers
actually test `status >= 400`, so a `304 Not Modified` final response —
not a 2xx — is returned as a success with no error. -/
theorem c9_counterexample_304_not_error :
    (Client.doRequest (NewClient "user" "pass" "")
      { now := 0, entryRefresh := RefreshResponse.netError,
        resp1 := { status := 304, body := "not modified" },
        retryRefresh := RefreshResponse.netError,
        resp2 := { status := 200, body := "" } }).result =
      Except.ok { status := 304, body := "not modified" } ∧
    Client.Get (NewClient "user" "pass" "")
      { now := 0, entryRefresh := RefreshResponse.netError,
        resp1 := { status := 304, body := "not modified" },
        retryRefresh := RefreshResponse.netError,
        resp2 := { status := 200, body := "" } } =
      Except.ok "not modified" ∧
    ¬(200 ≤ (304 : Int) ∧ (304 : Int) ≤ 299) :=
  ⟨rfl, rfl, by decide⟩

/-- Claim C9 (amended): for every verb wrapper, a final response (after
the at-most-one retry) with status `>= 400` is surfaced as an `APIError`
carrying exactly that status and body; a final response with status
`< 400` — in particular every 2xx — produces no error and never that
`APIError`. -/
theorem c9_status_classification (c : Client) (env : DoEnv)
    (r : HttpResponse)
    (h : (Client.doRequest c env).result = Except.ok r) :
    (400 ≤ r.status →
      Client.Get c env = Except.error (CallError.api r.status r.body) ∧
      Client.GetRaw c env = Except.error (CallError.api r.status r.body) ∧
      Client.Post c env = Except.error (CallError.api r.status r.body) ∧
      Client.Put c env = Except.error (CallError.api r.status r.body) ∧
      Client.Delete c env = Except.error (CallError.api r.status r.body)) ∧
    (r.status < 400 →
      Client.Get c env = Except.ok r.body ∧
      Client.GetRaw c env = Except.ok r.body ∧
      Client.Post c env = Except.ok r.body ∧
      Client.Put c env = Except.ok r.body ∧
      Client.Delete c env = Except.ok ()) ∧
    (200 ≤ r.status ∧ r.status ≤ 299 →
      Client.Get c env = Except.ok r.body ∧
      Client.Get c env ≠ Except.error (CallError.api r.status r.body)) := by
  refine ⟨?_, ?_, ?_⟩
  · intro h4
    refine ⟨?_, ?_, ?_, ?_, ?_⟩ <;>
      simp [Client.Get, Client.GetRaw, Client.Post, Client.Put,
        Client.Delete, h, classifyResponse, h4]
  · intro h4
    have hn : ¬ (400 ≤ r.status) := by omega
    refine ⟨?_, ?_, ?_, ?_, ?_⟩ <;>
      simp [Client.Get, Client.GetRaw, Client.Post, Client.Put,
        Client.Delete, h, classifyResponse, hn]
  · intro h2
    have hn : ¬ (400 ≤ r.status) := by omega
    constructor <;>
      simp [Client.Get, h, classifyResponse, hn]

/-- Claim C9 witness: a concrete `500` final response surfaces as the
`APIError` with its status and body. -/
theorem c9_status_classification_witness :
    Client.Get (NewClient "user" "pass" "")
      { now := 0, entryRefresh := RefreshResponse.netError,
        resp1 := { status := 500, body := "boom" },
        retryRefresh := RefreshResponse.netError,
        resp2 := { status := 200, body := "" } } =
      Except.error (CallError.api 500 "boom") :=
  ((c9_status_classification (NewClient "user" "pass" "")
    { now := 0, entryRefresh := RefreshResponse.netError,
      resp1 := { status := 500, body := "boom" },
      retryRefresh := RefreshResponse.netError,
      resp2 := { status := 200, body := "" } }
    { status := 500, body := "boom" } rfl).1 (by decide)).1

/-! ## Lookup lemmas for the JSON round trip -/

/-- Skipping a non-matching entry. -/
theorem lookup_cons_skip (k k2 : String) (v : JVal)
    (rest : List (String × JVal)) (h : (k == k2) = false) :
    ((k2, v) :: rest).lookup k = rest.lookup k := by
  simp [List.lookup, h]

/-- Skipping a non-matching `omitempty` string field. -/
theorem lookup_emitStr_skip (k k2 v : String) (rest : List (String × JVal))
    (h : (k == k2) = false) :
    (emitStr k2 v ++ rest).lookup k = rest.lookup k := by
  unfold emitStr
  split
  · simp
  · simp [List.lookup, h]

/-- Skipping a non-matching `omitempty` int field. -/
theorem lookup_emitInt_skip (k k2 : String) (v : Int)
    (rest : List (String × JVal)) (h : (k == k2) = false) :
    (emitInt k2 v ++ rest).lookup k = rest.lookup k := by
  unfold emitInt
  split
  · simp
  · simp [List.lookup, h]

/-- A lone non-matching `omitempty` string field yields nothing. -/
theorem lookup_emitStr_none (k k2 v : String) (h : (k == k2) = false) :
    (emitStr k2 v).lookup k = none := by
  unfold emitStr
  split
  · simp [List.lookup]
  · simp [List.lookup, h]

/-- Reading a string field stored at the head. -/
theorem lookupStr_cons_here (k s : String) (rest : List (String × JVal)) :
    lookupStr ((k, JVal.jstr s) :: rest) k = s := by
  simp [lookupStr, List.lookup]

/-- Reading a string field past a non-matching head entry. -/
theorem lookupStr_cons_skip (k k2 : String) (v : JVal)
    (rest : List (String × JVal)) (h : (k == k2) = false) :
    lookupStr ((k2, v) :: rest) k = lookupStr rest k := by
  simp [lookupStr, List.lookup, h]

/-- Reading a string field past a non-matching `omitempty` string
field. -/
theorem lookupStr_emitStr_skip (k k2 v : String)
    (rest : List (String × JVal)) (h : (k == k2) = false) :
    lookupStr (emitStr k2 v ++ rest) k = lookupStr rest k := by
  simp [lookupStr, lookup_emitStr_skip k k2 v rest h]

/-- Reading a string field past a non-matching `omitempty` int field. -/
theorem lookupStr_emitInt_skip (k k2 : String) (v : Int)
    (rest : List (String × JVal)) (h : (k == k2) = false) :
    lookupStr (emitInt k2 v ++ rest) k = lookupStr rest k := by
  simp [lookupStr, lookup_emitInt_skip k k2 v rest h]

/-- Reading back an `omitempty` string field when no later entry shares
its key: an omitted (empty) value decodes to the zero value, a present
value to itself. -/
theorem lookupStr_emitStr_here (k v : String) (rest : List (String × JVal))
    (h : rest.lookup k = none) :
    lookupStr (emitStr k v ++ rest) k = v := by
  unfold emitStr
  split
  · next hv => simp [lookupStr, h, hv]
  · simp [lookupStr, List.lookup]

/-- Reading back a lone `omitempty` string field. -/
theorem lookupStr_emitStr_alone (k v : String) :
    lookupStr (emitStr k v) k = v := by
  unfold emitStr
  split
  · next hv => simp [lookupStr, List.lookup, hv]
  · simp [lookupStr, List.lookup]

/-- Reading an int field past a non-matching head entry. -/
theorem lookupInt_cons_skip (k k2 : String) (v : JVal)
    (rest : List (String × JVal)) (h : (k == k2) = false) :
    lookupInt ((k2, v) :: rest) k = lookupInt rest k := by
  simp [lookupInt, List.lookup, h]

/-- Reading an int field past a non-matching `omitempty` string
field. -/
theorem lookupInt_emitStr_skip (k k2 v : String)
    (rest : List (String × JVal)) (h : (k == k2) = false) :
    lookupInt (emitStr k2 v ++ rest) k = lookupInt rest k := by
  simp [lookupInt, lookup_emitStr_skip k k2 v rest h]

/-- Reading back an `omitempty` int field when no later entry shares its
key. -/
theorem lookupInt_emitInt_here (k : String) (v : Int)
    (rest : List (String × JVal)) (h : rest.lookup k = none) :
    lookupInt (emitInt k v ++ rest) k = v := by
  unfold emitInt
  split
  · next hv => simp [lookupInt, h, hv]
  · simp [lookupInt, List.lookup]

/-- Reading a time field stored at the head. -/
theorem lookupTime_cons_here (k : String) (t : Int)
    (rest : List (String × JVal)) :
    lookupTime ((k, JVal.jtime t) :: rest) k = t := by
  simp [lookupTime, List.lookup]

/-- Reading a time field past a non-matching head entry. -/
theorem lookupTime_cons_skip (k k2 : String) (v : JVal)
    (rest : List (String × JVal)) (h : (k == k2) = false) :
    lookupTime ((k2, v) :: rest) k = lookupTime rest k := by
  simp [lookupTime, List.lookup, h]

/-- The two scheme tags survive the string round trip. -/
theorem authType_roundtrip (a : AuthType) :
    AuthType.ofGoString (AuthType.toGoString a) = a := by
  cases a <;> rfl

/-- Unmarshalling a marshalled `Credentials` record restores every
field. -/
theorem marshal_unmarshal_credentials (c : Credentials) :
    unmarshalCredentials (marshalCredentials c) = c := by
  cases c with
  | mk a cr em ap ac rt tt ei sc ci cs =>
    unfold marshalCredentials unmarshalCredentials
    simp only [Credentials.mk.injEq]
    refine ⟨?_, ?_, ?_, ?_, ?_, ?_, ?_, ?_, ?_, ?_, ?_⟩ <;>
      simp +decide [lookupStr_cons_here, lookupStr_cons_skip,
        lookupStr_emitStr_skip, lookupStr_emitInt_skip,
        lookupStr_emitStr_here, lookupStr_emitStr_alone,
        lookupInt_cons_skip, lookupInt_emitStr_skip, lookupInt_emitInt_here,
        lookupTime_cons_here, lookupTime_cons_skip,
        lookup_cons_skip, lookup_emitStr_skip, lookup_emitInt_skip,
        lookup_emitStr_none, authType_roundtrip]

/-- Unmarshalling a marshalled `TokenData` record restores every
field. -/
theorem marshal_unmarshal_tokenData (t : TokenData) :
    unmarshalTokenData (marshalTokenData t) = t := by
  cases t with
  | mk ac rt tt ei sc ob ci cs =>
    unfold marshalTokenData unmarshalTokenData
    simp +decide [lookupStr, lookupInt, lookupTime, List.lookup]

/-- Claim C5: for every credential of either scheme, `Save` followed by
`Load` restores a record equal in all fields — scheme tag, identity,
secret, access token, refresh token, token type, expiry seconds, scopes,
client id and secret, and creation timestamp — for both the unified
credentials store and the legacy token store. -/
theorem c5_save_load_roundtrip :
    (∀ (c : Credentials),
        LoadCredentialsStore (SaveCredentialsStore c) = some c) ∧
    (∀ (t : TokenData), LoadTokenStore (SaveTokenStore t) = some t) := by
  constructor
  · intro c
    simp [LoadCredentialsStore, SaveCredentialsStore,
      marshal_unmarshal_credentials c]
  · intro t
    simp [LoadTokenStore, SaveTokenStore, marshal_unmarshal_tokenData t]

/-- A run of serialized callers against a client whose token is not
expired performs no refresh and hands every caller the current auth
header. -/
theorem serialCallers_fresh (now : Int) (resp : RefreshResponse) :
    ∀ (n : Nat) (c : Client) (td : TokenData),
      c.tokenData = some td → td.IsExpired now = false →
      serialCallers c now resp n =
        (c, 0, List.replicate n (Except.ok (authHeaderOf c))) := by
  intro n
  induction n with
  | zero =>
    intro c td hc hf
    simp [serialCallers]
  | succ m ih =>
    intro c td hc hf
    have hE : ensureValidToken c now resp = (c, 0, none) := by
      unfold ensureValidToken
      rw [hc]
      simp [hf]
    unfold serialCallers
    rw [hE]
    simp [ih c td hc hf, List.replicate]

/-- Claim C6: with the critical sections serialized by the client's
mutex (so refreshes are totally ordered and no caller can observe a
partially updated record), any number of callers hitting an expired,
refreshable OAuth credential trigger exactly one refresh-grant network
call — the first caller's — and every caller returns the same refreshed
bearer header. -/
theorem c6_serialized_refresh_once (td : TokenData) (now : Int)
    (body : String) (result : RefreshResult) (n : Nat)
    (hexp : td.IsExpired now = true)
    (hrt : td.refreshToken ≠ "")
    (hna : result.access_token ≠ "")
    (hfresh : bufferSeconds ≤ result.expires_in) :
    (serialCallers (NewClientFromToken td) now
        (RefreshResponse.reply 200 body (some result)) (n + 1)).2.1 = 1 ∧
    (serialCallers (NewClientFromToken td) now
        (RefreshResponse.reply 200 body (some result)) (n + 1)).2.2 =
      List.replicate (n + 1)
        (Except.ok (some ("Bearer " ++ result.access_token))) := by
  have hE1 : ensureValidToken (NewClientFromToken td) now
      (RefreshResponse.reply 200 body (some result)) =
      ({ token := result.access_token, username := "", password := "",
         tokenData := some
           { accessToken := result.access_token
             refreshToken :=
               if result.refresh_token ≠ "" then result.refresh_token
               else td.refreshToken
             tokenType := td.tokenType
             expiresIn := result.expires_in
             scopes := result.scopes
             obtainedAt := now
             clientID := td.clientID
             clientSecret := td.clientSecret } }, 1, none) := by
    unfold ensureValidToken NewClientFromToken
    simp only [hexp, Bool.not_true, Bool.false_eq_true, if_false]
    simp [RefreshAccessToken]
  have hfresh2 : TokenData.IsExpired
      { accessToken := result.access_token
        refreshToken :=
          if result.refresh_token ≠ "" then result.refresh_token
          else td.refreshToken
        tokenType := td.tokenType
        expiresIn := result.expires_in
        scopes := result.scopes
        obtainedAt := now
        clientID := td.clientID
        clientSecret := td.clientSecret } now = false := by
    simp only [TokenData.IsExpired, decide_eq_false_iff_not, not_lt]
    simp only [bufferSeconds] at hfresh ⊢
    omega
  unfold serialCallers
  rw [hE1]
  dsimp only
  rw [serialCallers_fresh now (RefreshResponse.reply 200 body (some result))
    n _ _ rfl hfresh2]
  simp [authHeaderOf, hna, List.replicate]

/-- Claim C6 witness: three serialized callers against a concrete
expired, refreshable credential: one refresh, all three receive the new
bearer header. -/
theorem c6_serialized_refresh_once_witness :
    (serialCallers
      (NewClientFromToken
        { accessToken := "old", refreshToken := "r1", tokenType := "bearer",
          expiresIn := 3600, scopes := "repo", obtainedAt := 0,
          clientID := "i", clientSecret := "s" }) 10000
      (RefreshResponse.reply 200 "ok"
        (some { access_token := "new", refresh_token := "r2",
                token_type := "bearer", expires_in := 7200,
                scopes := "repo" })) 3).2.1 = 1 :=
  (c6_serialized_refresh_once
    { accessToken := "old", refreshToken := "r1", tokenType := "bearer",
      expiresIn := 3600, scopes := "repo", obtainedAt := 0,
      clientID := "i", clientSecret := "s" } 10000 "ok"
    { access_token := "new", refresh_token := "r2", token_type := "bearer",
      expires_in := 7200, scopes := "repo" } 2
    (by decide) (by decide) (by decide) (by decide)).1

end Bitbucket
